import Mathlib

/-
Verification of the PhantomFreq BLE identity-rotation programs.

The repository holds four variants of the same program: `linux.c`,
`bluetoothFake.c`, `ESP32.c` and an unnamed file (`src/unnamed/part_000`)
whose code is line-for-line the logic of `linux.c`.  Each variant builds a
BLE advertising payload for one simulated identity and drives the radio
through stop / set-address / set-payload / set-parameters / start cycles
over a roster of three identities.

Shallow embedding conventions:
  - Bytes are `Nat`; C byte buffers are `List Nat` in write order.  The C
    programs write into a fixed `uint8_t data[31]`; the list collects every
    byte the code writes (so an out-of-bounds write shows up as a list
    longer than 31).
  - Each `hci_send_cmd` / `esp_ble_gap_*` radio command is an event; the
    success of each command class is an oracle `K → Bool` (per scheduling
    iteration, `Nat → K → Bool`).
  - `perror` messages go to a log list; `printf` progress lines are not
    modelled.
  - `esp_ble_gap_start_advertising(&adv_params)` programs the advertising
    parameters and enables advertising in one call; it is modelled as the
    two events `setParameters` then `start`, following the structure of the
    BlueZ variants where the same work is two commands.
-/

/-- The classes of radio commands the programs issue, plus `close` for
releasing the HCI socket. -/
inductive K : Type
  | stop
  | setAddress
  | setPayload
  | setParameters
  | start
  | close
deriving DecidableEq, BEq, Repr

/-- A radio call as recorded in a trace, carrying the bytes the command
delivers to the controller. -/
inductive Ev : Type
  | stop
  | setAddress (mac : List Nat)
  | setPayload (bytes : List Nat)
  | setParameters
  | start
  | close
deriving DecidableEq, BEq, Repr

/-- Command class of an event. -/
def kindOf : Ev → K
  | .stop => .stop
  | .setAddress _ => .setAddress
  | .setPayload _ => .setPayload
  | .setParameters => .setParameters
  | .start => .start
  | .close => .close

/-- Command classes of a trace, in order. -/
def kinds (t : List Ev) : List K := t.map kindOf

/-- Result of one modelled C helper: the radio commands it issued, the
perror lines it printed, and its `int` return value. -/
structure Res where
  evs : List Ev
  logs : List String
  ret : Int
deriving DecidableEq, Repr

/-- Result of one iteration of a scheduling loop: commands issued, perror
lines, and whether the loop continues (`false` = the C `break`). -/
structure IterOut where
  evs : List Ev
  logs : List String
  cont : Bool
deriving DecidableEq, Repr

/-- Result of a fuelled run of a main loop: commands issued, perror lines,
and `some code` when the process returned, `none` while still looping. -/
structure RunOut where
  evs : List Ev
  logs : List String
  code : Option Int
deriving DecidableEq, Repr

/-- ASCII bytes of a C string literal. -/
def strBytes (s : String) : List Nat := s.data.map Char.toNat

/-- `idx = (idx + 1) % 3`: the cursor advance used by every variant. -/
def nextIdx (i : Nat) : Nat := (i + 1) % 3

/-- The roster entries visited over `k` iterations starting at cursor `i`
(each iteration reads the current entry, then advances the cursor). -/
def visitFrom (roster : List (List Nat)) : Nat → Nat → List (List Nat)
  | _, 0 => []
  | i, k + 1 => roster.getD i [] :: visitFrom roster (nextIdx i) k

namespace HCI

/- `set_random_mac`, `start_advertising` and `stop_advertising` are
byte-identical across linux.c, bluetoothFake.c and src/unnamed/part_000,
so they are modelled once. -/

/-- `set_random_mac`: sends OCF_LE_SET_RANDOM_ADDRESS; on failure it only
perrors.  The C function returns void, so there is no return value. -/
def set_random_mac (ok : K → Bool) (mac : List Nat) : List Ev × List String :=
  ([Ev.setAddress mac],
   if ok K.setAddress then [] else ["HCI_LE_SET_RANDOM_ADDRESS failed"])

/-- `start_advertising`: sends OCF_LE_SET_ADVERTISING_PARAMETERS, and on its
success sends OCF_LE_SET_ADVERTISE_ENABLE with enable = 1. -/
def start_advertising (ok : K → Bool) : Res :=
  if ok K.setParameters then
    if ok K.start then ⟨[Ev.setParameters, Ev.start], [], 0⟩
    else ⟨[Ev.setParameters, Ev.start], ["Enable advertising failed"], -1⟩
  else ⟨[Ev.setParameters], ["Set advertising parameters failed"], -1⟩

/-- `stop_advertising`: sends OCF_LE_SET_ADVERTISE_ENABLE with enable = 0. -/
def stop_advertising (ok : K → Bool) : Res :=
  if ok K.stop then ⟨[Ev.stop], [], 0⟩
  else ⟨[Ev.stop], ["Disable advertising failed"], -1⟩

end HCI

namespace Linux

/- linux.c; the code of src/unnamed/part_000 is identical apart from
comments, so these definitions model both files. -/

/-- The advertising buffer built by `set_advertising_data` in linux.c:
flags record, then the name record, with the name capped at 29 bytes.
The C buffer is `uint8_t data[31]`; the list is every byte written. -/
def encode (name : List Nat) : List Nat :=
  let name_len := if name.length > 29 then 29 else name.length
  [2, 0x01, 0x06, name_len + 1, 0x09] ++ name.take name_len

/-- `set_advertising_data` in linux.c builds the buffer and then returns 0:
the `hci_le_set_advertising_data` send is commented out, so no radio
command is issued and no failure is possible.  The first component is the
buffer the function computed and discarded. -/
def set_advertising_data (name : List Nat) : List Nat × Res :=
  (encode name, ⟨[], [], 0⟩)

/-- The `names[]` roster of linux.c. -/
def names : List (List Nat) :=
  [strBytes "DISP_01", strBytes "DISP_02", strBytes "DISP_03"]

/-- The `macs_str[]` roster of linux.c, as the six address bytes in the
order written in the source strings (str2ba's byte order is immaterial to
every claim, which only need the three addresses to be fixed values). -/
def macs : List (List Nat) :=
  [[0xAA, 0xBB, 0xCC, 0xDD, 0xEE, 0x01],
   [0xAA, 0xBB, 0xCC, 0xDD, 0xEE, 0x02],
   [0xAA, 0xBB, 0xCC, 0xDD, 0xEE, 0x03]]

/-- One iteration of the `while (1)` loop in linux.c's `main`:
`stop_advertising` (result discarded), `set_random_mac` (void),
`set_advertising_data` (break if negative), `start_advertising`
(break if negative). -/
def loopIter (ok : K → Bool) (idx : Nat) : IterOut :=
  let s := HCI.stop_advertising ok
  let a := HCI.set_random_mac ok (macs.getD idx [])
  let d := (set_advertising_data (names.getD idx [])).2
  if d.ret < 0 then ⟨s.evs ++ a.1 ++ d.evs, s.logs ++ a.2 ++ d.logs, false⟩
  else
    let g := HCI.start_advertising ok
    ⟨s.evs ++ a.1 ++ d.evs ++ g.evs, s.logs ++ a.2 ++ d.logs ++ g.logs,
     if g.ret < 0 then false else true⟩

end Linux

namespace Fake

/- bluetoothFake.c -/

/-- The advertising buffer built by `set_advertising_data` in
bluetoothFake.c: flags record, heart-rate service UUID record (0x180D,
little-endian), then the name record; the name is capped at
`31 - index - 2` bytes where `index = 7` after the UUID record. -/
def encode (name : List Nat) : List Nat :=
  let name_len := if name.length > 31 - 7 - 2 then 31 - 7 - 2 else name.length
  [2, 0x01, 0x06, 3, 0x03, 0x0D, 0x18, name_len + 1, 0x09] ++ name.take name_len

/-- `set_advertising_data` in bluetoothFake.c builds the buffer and sends it
with OCF_LE_SET_ADVERTISING_DATA, returning -1 if the send fails. -/
def set_advertising_data (ok : K → Bool) (name : List Nat) : Res :=
  if ok K.setPayload then ⟨[Ev.setPayload (encode name)], [], 0⟩
  else ⟨[Ev.setPayload (encode name)], ["HCI_LE_SET_ADVERTISING_DATA failed"], -1⟩

/-- The `names[]` roster of bluetoothFake.c. -/
def names : List (List Nat) :=
  [strBytes "HRM_Brac_01", strBytes "HRM_Brac_02", strBytes "HRM_Brac_03"]

/-- The `macs_str[]` roster of bluetoothFake.c (same addresses as linux.c). -/
def macs : List (List Nat) := Linux.macs

/-- One iteration of the `while (1)` loop in bluetoothFake.c's `main`:
`stop_advertising` (result discarded), `set_random_mac` (void),
`set_advertising_data` (break if negative), `start_advertising`
(break if negative). -/
def loopIter (ok : K → Bool) (idx : Nat) : IterOut :=
  let s := HCI.stop_advertising ok
  let a := HCI.set_random_mac ok (macs.getD idx [])
  let d := set_advertising_data ok (names.getD idx [])
  if d.ret < 0 then ⟨s.evs ++ a.1 ++ d.evs, s.logs ++ a.2 ++ d.logs, false⟩
  else
    let g := HCI.start_advertising ok
    ⟨s.evs ++ a.1 ++ d.evs ++ g.evs, s.logs ++ a.2 ++ d.logs ++ g.logs,
     if g.ret < 0 then false else true⟩

end Fake

namespace ESP32

/- ESP32.c -/

/-- The `adv_data` buffer built by `start_advertising` in ESP32.c: the same
flags-then-name layout as linux.c, name capped at 29 bytes, buffer
declared as `uint8_t adv_data[31]`. -/
def encode (name : List Nat) : List Nat :=
  let name_len := if name.length > 29 then 29 else name.length
  [2, 0x01, 0x06, name_len + 1, 0x09] ++ name.take name_len

/-- ESP32.c's `start_advertising(name)`: builds `adv_data` and hands it to
the controller with `esp_ble_gap_config_adv_data_raw(adv_data, i)`. -/
def start_advertising (name : List Nat) : List Ev :=
  [Ev.setPayload (encode name)]

/-- The `device_names[]` roster of ESP32.c. -/
def device_names : List (List Nat) :=
  [strBytes "DISP_01", strBytes "DISP_02", strBytes "DISP_03"]

/-- The `device_macs[][6]` roster of ESP32.c. -/
def device_macs : List (List Nat) :=
  [[0xAA, 0xBB, 0xCC, 0xDD, 0xEE, 0x01],
   [0xAA, 0xBB, 0xCC, 0xDD, 0xEE, 0x02],
   [0xAA, 0xBB, 0xCC, 0xDD, 0xEE, 0x03]]

/-- One iteration of `advertising_loop_task`: stop, set random address,
configure raw advertising data, then `esp_ble_gap_start_advertising`
(parameters + enable).  Every return value is ignored by the C code, so
the trace does not depend on command success and the loop never breaks. -/
def advertising_loop_body (idx : Nat) : List Ev :=
  [Ev.stop] ++ [Ev.setAddress (device_macs.getD idx [])]
    ++ start_advertising (device_names.getD idx [])
    ++ [Ev.setParameters, Ev.start]

end ESP32

/-- Fuelled run of a BlueZ-style `main` loop.  `body` is one loop
iteration; on `break` the code performs the final `stop_advertising` and
`close(sock)` and `main` returns 0; with fuel exhausted the loop is still
running (`code = none`). -/
def runAux (body : (K → Bool) → Nat → IterOut) (ok : Nat → K → Bool) :
    Nat → Nat → Nat → RunOut
  | 0, _, _ => ⟨[], [], none⟩
  | fuel + 1, iter, idx =>
    let r := body (ok iter) idx
    if r.cont then
      let rest := runAux body ok fuel (iter + 1) (nextIdx idx)
      ⟨r.evs ++ rest.evs, r.logs ++ rest.logs, rest.code⟩
    else
      let fin := HCI.stop_advertising (ok iter)
      ⟨r.evs ++ (fin.evs ++ [Ev.close]), r.logs ++ fin.logs, some 0⟩

/-- The bluetoothFake.c `main` loop, fuelled. -/
def Fake.run (ok : Nat → K → Bool) (fuel iter idx : Nat) : RunOut :=
  runAux Fake.loopIter ok fuel iter idx

/-- The linux.c (and src/unnamed/part_000) `main` loop, fuelled. -/
def Linux.run (ok : Nat → K → Bool) (fuel iter idx : Nat) : RunOut :=
  runAux Linux.loopIter ok fuel iter idx

/-- Radio oracle on which every set-payload command fails and every other
command succeeds. -/
def okPayloadFail : Nat → K → Bool :=
  fun _ k => match k with | K.setPayload => false | _ => true

/-- Radio oracle on which every set-address command fails and every other
command succeeds. -/
def okAddrFail : Nat → K → Bool :=
  fun _ k => match k with | K.setAddress => false | _ => true

/-- Every occurrence of command class `a` comes strictly before every
occurrence of command class `b` in the kind trace `l`. -/
@[reducible] def precedes (a b : K) (l : List K) : Prop :=
  ∀ i j : Fin l.length, l.get i = a → l.get j = b → (i : Nat) < (j : Nat)

/-- The stop / setAddress / setPayload / setParameters / start chain of the
spec, as adjacent-pair precedence over a kind trace. -/
@[reducible] def chainOrder (l : List K) : Prop :=
  precedes K.stop K.setAddress l ∧ precedes K.setAddress K.setPayload l ∧
  precedes K.setPayload K.setParameters l ∧ precedes K.setParameters K.start l

/-- Every set-address command has a prior stop command in the same trace. -/
@[reducible] def addrAfterStop (l : List K) : Prop :=
  ∀ j : Fin l.length, l.get j = K.setAddress →
    ∃ i : Fin l.length, (i : Nat) < (j : Nat) ∧ l.get i = K.stop

/-! Helper lemmas shared by the claim theorems. -/

theorem cap_eq_min (c L : Nat) : (if L > c then c else L) = min L c := by
  split <;> omega

theorem stop_evs (ok : K → Bool) : (HCI.stop_advertising ok).evs = [Ev.stop] := by
  unfold HCI.stop_advertising
  split <;> rfl

theorem fake_kinds (ok : K → Bool) (idx : Nat) :
    kinds (Fake.loopIter ok idx).evs =
      if ok K.setPayload then
        if ok K.setParameters then
          [K.stop, K.setAddress, K.setPayload, K.setParameters, K.start]
        else [K.stop, K.setAddress, K.setPayload, K.setParameters]
      else [K.stop, K.setAddress, K.setPayload] := by
  cases h1 : ok K.stop <;> cases h3 : ok K.setPayload <;>
    cases h4 : ok K.setParameters <;> cases h5 : ok K.start <;>
    simp [Fake.loopIter, HCI.stop_advertising, HCI.set_random_mac,
      Fake.set_advertising_data, HCI.start_advertising, h1, h3, h4, h5, kinds, kindOf]

theorem linux_kinds (ok : K → Bool) (idx : Nat) :
    kinds (Linux.loopIter ok idx).evs =
      if ok K.setParameters then
        [K.stop, K.setAddress, K.setParameters, K.start]
      else [K.stop, K.setAddress, K.setParameters] := by
  cases h1 : ok K.stop <;> cases h4 : ok K.setParameters <;> cases h5 : ok K.start <;>
    simp [Linux.loopIter, HCI.stop_advertising, HCI.set_random_mac,
      Linux.set_advertising_data, HCI.start_advertising, h1, h4, h5, kinds, kindOf]

theorem esp_kinds (idx : Nat) :
    kinds (ESP32.advertising_loop_body idx) =
      [K.stop, K.setAddress, K.setPayload, K.setParameters, K.start] := by
  simp [ESP32.advertising_loop_body, ESP32.start_advertising, kinds, kindOf]

theorem runAux_exit (body : (K → Bool) → Nat → IterOut) (ok : Nat → K → Bool) :
    ∀ fuel iter idx c, (runAux body ok fuel iter idx).code = some c →
      c = 0 ∧ ∃ t, (runAux body ok fuel iter idx).evs = t ++ [Ev.stop, Ev.close] := by
  intro fuel
  induction fuel with
  | zero => intro iter idx c h; simp [runAux] at h
  | succ n ih =>
    intro iter idx c h
    unfold runAux at h ⊢
    by_cases hc : (body (ok iter) idx).cont
    · simp only [hc, if_true] at h ⊢
      obtain ⟨h0, t, ht⟩ := ih (iter + 1) (nextIdx idx) c h
      refine ⟨h0, (body (ok iter) idx).evs ++ t, ?_⟩
      simp [ht, List.append_assoc]
    · simp only [hc, if_false] at h ⊢
      refine ⟨?_, (body (ok iter) idx).evs, ?_⟩
      · simpa using h.symm
      · simp [stop_evs]

/-! Claim theorems. -/

/-- C1: the claim says every encoded payload fits in 31 bytes.  The
bluetoothFake.c encoder does satisfy the bound, but the linux.c / ESP32.c /
part_000 encoder caps the name at 29 bytes while 5 header bytes precede
it, so a 27-byte name already yields a 32-byte payload (and a 29-byte name
a 34-byte one, written past the end of the 31-byte C buffer). -/
theorem payload_length_overflow :
    (Linux.encode (List.replicate 27 65)).length = 32 ∧
    (ESP32.encode (List.replicate 29 65)).length = 34 ∧
    31 < (ESP32.encode (List.replicate 29 65)).length ∧
    ∀ name : List Nat, (Fake.encode name).length ≤ 31 := by
  refine ⟨by decide, by decide, by decide, ?_⟩
  intro name
  simp only [Fake.encode, cap_eq_min, List.length_append, List.length_cons,
    List.length_take, List.length_nil]
  omega

/-- C2: in the radio-call trace of one identity switch, every stop call
precedes every set-address call, which precedes every set-payload call,
which precedes every set-parameters call, which precedes every start
(enable) call, and every set-address call has a prior stop in the same
cycle — in all three variants, for every pattern of command successes.
In the bluetoothFake.c (all commands succeeding) and ESP32.c traces all
five calls occur, in exactly that order. -/
theorem sequencer_call_order (ok : K → Bool) (idx : Nat) :
    (chainOrder (kinds (Fake.loopIter ok idx).evs) ∧
      addrAfterStop (kinds (Fake.loopIter ok idx).evs)) ∧
    (chainOrder (kinds (Linux.loopIter ok idx).evs) ∧
      addrAfterStop (kinds (Linux.loopIter ok idx).evs)) ∧
    (chainOrder (kinds (ESP32.advertising_loop_body idx)) ∧
      addrAfterStop (kinds (ESP32.advertising_loop_body idx))) ∧
    kinds (Fake.loopIter (fun _ => true) idx).evs =
      [K.stop, K.setAddress, K.setPayload, K.setParameters, K.start] ∧
    kinds (ESP32.advertising_loop_body idx) =
      [K.stop, K.setAddress, K.setPayload, K.setParameters, K.start] := by
  simp only [fake_kinds, linux_kinds, esp_kinds]
  refine ⟨?_, ?_, ⟨by decide, by decide⟩, by simp, by decide⟩
  · cases h3 : ok K.setPayload <;> cases h4 : ok K.setParameters <;> simp <;>
      exact ⟨by decide, by decide⟩
  · cases h4 : ok K.setParameters <;> simp <;> exact ⟨by decide, by decide⟩

/-- C3 counterexample: run bluetoothFake.c's loop on a radio where every
set-address command fails and every other command succeeds.  The claim
says no further identity switch happens after an address-set failure; in
fact two iterations perform two full switches (two set-address and two
start calls), the failures are merely perror-logged, and the loop is
still running (`code = none`). -/
theorem address_failure_loop_continues :
    (kinds (Fake.run okAddrFail 2 0 0).evs).count K.setAddress = 2 ∧
    (kinds (Fake.run okAddrFail 2 0 0).evs).count K.start = 2 ∧
    (Fake.run okAddrFail 2 0 0).code = none ∧
    "HCI_LE_SET_RANDOM_ADDRESS failed" ∈ (Fake.run okAddrFail 2 0 0).logs := by
  decide

/-- C3 amended: a set-address failure is not fatal.  `set_random_mac`
returns void, so the loop cannot observe the failure: it is only logged,
the cycle still proceeds through the payload step, and whether the loop
continues depends only on the payload-set, parameters-set and start
commands. -/
theorem address_failure_not_fatal (ok : K → Bool) (idx : Nat) :
    (ok K.setAddress = false →
      "HCI_LE_SET_RANDOM_ADDRESS failed" ∈ (Fake.loopIter ok idx).logs) ∧
    (Fake.loopIter ok idx).cont =
      (ok K.setPayload && (ok K.setParameters && ok K.start)) ∧
    (Fake.loopIter ok idx).evs =
      (Fake.loopIter (fun k => if k = K.setAddress then false else ok k) idx).evs ∧
    (Fake.loopIter ok idx).cont =
      (Fake.loopIter (fun k => if k = K.setAddress then false else ok k) idx).cont ∧
    (Fake.loopIter ok idx).evs.take 3 =
      [Ev.stop, Ev.setAddress (Fake.macs.getD idx []),
        Ev.setPayload (Fake.encode (Fake.names.getD idx []))] := by
  cases h1 : ok K.stop <;> cases h2 : ok K.setAddress <;> cases h3 : ok K.setPayload <;>
    cases h4 : ok K.setParameters <;> cases h5 : ok K.start <;>
    simp [Fake.loopIter, HCI.stop_advertising, HCI.set_random_mac,
      Fake.set_advertising_data, HCI.start_advertising, h1, h2, h3, h4, h5]

/-- C3 witness: with every command failing on the set-address class only,
the failure shows up in the iteration's log. -/
theorem address_failure_not_fatal_inst :
    "HCI_LE_SET_RANDOM_ADDRESS failed" ∈ (Fake.loopIter (okAddrFail 0) 0).logs :=
  (address_failure_not_fatal (okAddrFail 0) 0).1 (by decide)

/-- C4: the payload is transmitted only in the bluetoothFake.c and ESP32.c
variants.  In linux.c (and the identical src/unnamed/part_000),
`set_advertising_data` computes the encoder's bytes, issues no radio
command at all (the send is commented out) and returns 0, so on the
roster identity DISP_01 the one-switch radio trace has no set-payload
call. -/
theorem payload_discarded_in_linux_variant :
    (Fake.set_advertising_data (fun _ => true) (strBytes "HRM_Brac_01")).evs =
      [Ev.setPayload (Fake.encode (strBytes "HRM_Brac_01"))] ∧
    ESP32.start_advertising (strBytes "DISP_01") =
      [Ev.setPayload (ESP32.encode (strBytes "DISP_01"))] ∧
    (Linux.set_advertising_data (strBytes "DISP_01")).1 =
      Linux.encode (strBytes "DISP_01") ∧
    (Linux.set_advertising_data (strBytes "DISP_01")).2.evs = [] ∧
    (Linux.set_advertising_data (strBytes "DISP_01")).2.ret = 0 ∧
    kinds (Linux.loopIter (fun _ => true) 0).evs =
      [K.stop, K.setAddress, K.setParameters, K.start] := by
  refine ⟨by decide, by decide, by decide, by decide, by decide, ?_⟩
  simp [linux_kinds]

/-- C5 counterexample: the claim's truncation rule (flags 3 bytes, plus 3
if a service-UUID record is present, plus 2, plus k, at most 31) would
allow k = 23 name bytes in the UUID-bearing bluetoothFake.c encoder, but
that encoder keeps only 22 bytes of a 23-byte name — the UUID record
really occupies 4 bytes (its length byte included), not 3. -/
theorem truncation_not_maximal :
    3 + 3 + 2 + 23 ≤ 31 ∧
    ((Fake.encode (List.replicate 23 65)).drop 9) = List.replicate 22 65 ∧
    ((Fake.encode (List.replicate 23 65)).drop 9).length = 22 := by
  decide

/-- C5 amended: bluetoothFake.c truncates the name to the maximal k with
3 (flags) + 4 (UUID record, length byte included) + 2 (name header) + k
at most 31, that is k = min(len, 22), and its payload fills the whole
31-byte budget once len is at least 22; linux.c and ESP32.c truncate to
k = min(len, 29) regardless of the 31-byte bound.  Truncation never fails
the encode, and each encoder is a pure function of the name (the output
is the explicit byte list below). -/
theorem truncation_rule_actual (name : List Nat) :
    (22 ≤ name.length → (Fake.encode name).length = 31) ∧
    Fake.encode name = [2, 1, 6, 3, 3, 0x0D, 0x18] ++
      (min name.length 22 + 1) :: 9 :: name.take (min name.length 22) ∧
    (Fake.encode name).length = 9 + min name.length 22 ∧
    3 + 4 + 2 + 22 ≤ 31 ∧ ¬ (3 + 4 + 2 + 23 ≤ 31) ∧
    Linux.encode name = [2, 1, 6] ++
      (min name.length 29 + 1) :: 9 :: name.take (min name.length 29) ∧
    ESP32.encode name = Linux.encode name := by
  refine ⟨?_, ?_, ?_, by decide, by decide, ?_, ?_⟩
  · intro h
    simp only [Fake.encode, cap_eq_min, List.length_append, List.length_cons,
      List.length_take, List.length_nil]
    omega
  · simp [Fake.encode, cap_eq_min]
  · simp only [Fake.encode, cap_eq_min, List.length_append, List.length_cons,
      List.length_take, List.length_nil]
    omega
  · simp [Linux.encode, cap_eq_min]
  · simp [ESP32.encode, Linux.encode]

/-- C5 witness: a 23-byte name fills the bluetoothFake.c payload to exactly
31 bytes. -/
theorem truncation_rule_actual_inst :
    (Fake.encode (List.replicate 23 65)).length = 31 :=
  (truncation_rule_actual (List.replicate 23 65)).1 (by decide)

/-- C6 counterexample: when the set-payload command fails, the
bluetoothFake.c loop breaks, performs the final stop and close — and then
`main` returns 0, not the non-zero status the claim requires. -/
theorem abort_exits_with_zero :
    (Fake.run okPayloadFail 1 0 0).code = some 0 ∧
    kinds (Fake.run okPayloadFail 1 0 0).evs =
      [K.stop, K.setAddress, K.setPayload, K.stop, K.close] := by
  decide

/-- C6 amended: whenever a fatal step failure makes the scheduling loop of
bluetoothFake.c or linux.c abort (the run terminates with some exit
code), the process performs a best-effort stop() and close() as its last
two radio-session actions and exits with status 0 (the C `main` returns 0
after breaking out of the loop). -/
theorem abort_cleanup_stop_close (ok : Nat → K → Bool) (fuel iter idx : Nat) (c : Int) :
    ((Fake.run ok fuel iter idx).code = some c →
      c = 0 ∧ ∃ t, (Fake.run ok fuel iter idx).evs = t ++ [Ev.stop, Ev.close]) ∧
    ((Linux.run ok fuel iter idx).code = some c →
      c = 0 ∧ ∃ t, (Linux.run ok fuel iter idx).evs = t ++ [Ev.stop, Ev.close]) :=
  ⟨runAux_exit Fake.loopIter ok fuel iter idx c,
   runAux_exit Linux.loopIter ok fuel iter idx c⟩

/-- C6 witness: the aborted run above does terminate, with exit status 0
and a trace ending in the stop and close cleanup. -/
theorem abort_cleanup_stop_close_inst :
    (0 : Int) = 0 ∧ ∃ t, (Fake.run okPayloadFail 1 0 0).evs = t ++ [Ev.stop, Ev.close] :=
  (abort_cleanup_stop_close okPayloadFail 1 0 0 0).1 (by decide)

/-- C7: the roster cursor of every variant (`idx = (idx + 1) % 3`) is
circular: three advances return it to its start, the identities visited
over six iterations are the three-iteration sequence repeated twice (for
the linux.c/part_000, bluetoothFake.c and ESP32.c rosters, each of length
3), and the cursor always stays below 3. -/
theorem roster_circular (i : Fin 3) :
    nextIdx (nextIdx (nextIdx i.val)) = i.val ∧
    visitFrom Linux.names i.val 6 =
      visitFrom Linux.names i.val 3 ++ visitFrom Linux.names i.val 3 ∧
    visitFrom Fake.names i.val 6 =
      visitFrom Fake.names i.val 3 ++ visitFrom Fake.names i.val 3 ∧
    visitFrom ESP32.device_names i.val 6 =
      visitFrom ESP32.device_names i.val 3 ++ visitFrom ESP32.device_names i.val 3 ∧
    nextIdx i.val < 3 ∧
    Linux.names.length = 3 ∧ Fake.names.length = 3 ∧ ESP32.device_names.length = 3 := by
  fin_cases i <;> decide

/-- C8: encoding the empty name in the variants without a service-UUID
record (linux.c, part_000, ESP32.c) yields exactly the five bytes
[2, 0x01, 0x06, 1, 0x09]: flags record, then a name record with length
byte 1, type 0x09 and no value bytes. -/
theorem empty_name_payload :
    Linux.encode [] = [2, 0x01, 0x06, 1, 0x09] ∧
    ESP32.encode [] = [2, 0x01, 0x06, 1, 0x09] ∧
    (Linux.encode []).length = 5 := by
  decide

/-- C9: a stop failure is recoverable on every iteration: `main` discards
`stop_advertising`'s return value, so the switch proceeds to the
set-address step (the trace starts stop, setAddress) and the whole
iteration — trace and continue decision — is unchanged if the stop
command fails; the failure is only perror-logged.  Holds for both
bluetoothFake.c and linux.c (part_000 identical). -/
theorem stop_failure_recoverable (ok : K → Bool) (idx : Nat) :
    (ok K.stop = false →
      "Disable advertising failed" ∈ (Fake.loopIter ok idx).logs) ∧
    (Fake.loopIter ok idx).evs.take 2 =
      [Ev.stop, Ev.setAddress (Fake.macs.getD idx [])] ∧
    (Fake.loopIter ok idx).evs =
      (Fake.loopIter (fun k => if k = K.stop then false else ok k) idx).evs ∧
    (Fake.loopIter ok idx).cont =
      (Fake.loopIter (fun k => if k = K.stop then false else ok k) idx).cont ∧
    (Linux.loopIter ok idx).evs.take 2 =
      [Ev.stop, Ev.setAddress (Linux.macs.getD idx [])] ∧
    (Linux.loopIter ok idx).evs =
      (Linux.loopIter (fun k => if k = K.stop then false else ok k) idx).evs ∧
    (Linux.loopIter ok idx).cont =
      (Linux.loopIter (fun k => if k = K.stop then false else ok k) idx).cont := by
  cases h1 : ok K.stop <;> cases h3 : ok K.setPayload <;>
    cases h4 : ok K.setParameters <;> cases h5 : ok K.start <;>
    simp [Fake.loopIter, Linux.loopIter, HCI.stop_advertising, HCI.set_random_mac,
      Fake.set_advertising_data, Linux.set_advertising_data, HCI.start_advertising,
      h1, h3, h4, h5]

/-- C9 witness: with the stop command failing, the iteration logs the stop
perror line. -/
theorem stop_failure_recoverable_inst :
    "Disable advertising failed" ∈ (Fake.loopIter (fun _ => false) 0).logs :=
  (stop_failure_recoverable (fun _ => false) 0).1 (by decide)

/-- C10: in linux.c (and the identical src/unnamed/part_000)
`set_advertising_data` returns 0 for every input, so the loop's abort
branch for a payload-set failure is unreachable: the iteration's continue
decision equals the conjunction of the set-parameters and start command
successes, i.e. the loop can only exit through a parameters-set or start
failure. -/
theorem linux_payload_branch_unreachable (name : List Nat) (ok : K → Bool) (idx : Nat) :
    (Linux.set_advertising_data name).2.ret = 0 ∧
    (Linux.set_advertising_data name).2.evs = [] ∧
    (Linux.loopIter ok idx).cont = (ok K.setParameters && ok K.start) := by
  refine ⟨rfl, rfl, ?_⟩
  cases h1 : ok K.stop <;> cases h4 : ok K.setParameters <;> cases h5 : ok K.start <;>
    simp [Linux.loopIter, HCI.stop_advertising, HCI.set_random_mac,
      Linux.set_advertising_data, HCI.start_advertising, h1, h4, h5]
